import Mathlib

/-!
Shallow embedding of the OrbitRTOS kernel core (task registry, scheduler,
IPC primitives) and proofs about the claims of its specification.

The C sources embedded here are `src/kernel/task.c`, `src/kernel/scheduler.c`
and `src/kernel/ipc.c` together with their headers.  Machine integers
(`uint32_t`) are modelled as `Nat` with explicit `% 2^32` at the operations
where C overflow semantics matter.  The doubly linked lists of `utils/list.h`
(whose implementation file is not part of the core sources; the spec allows
any container with head/append/remove) are modelled as Lean `List`s:
`list_append` is append at the tail, `list_remove` erases the first
occurrence, `list_head` is `List.head?`.  Tasks are identified by a numeric
tid; the task registry (`task_list` / pointer identity in C) is a function
from tids to task control blocks.
-/

namespace OrbitRTOS

/-- Tunable constants from `config.h`. -/
def MAX_PRIORITY_LEVELS : Nat := 16

def DEFAULT_TIME_SLICE : Nat := 10

def MAX_TIMEOUT : Nat := 2 ^ 32 - 1

/-- Value of `UINT32_MAX`. -/
def UINT32_MAX : Nat := 2 ^ 32 - 1

/-- Modulus of `uint32_t` arithmetic. -/
def U32 : Nat := 2 ^ 32

/-- `uint32_t` addition. -/
def add32 (a b : Nat) : Nat := (a + b) % U32

/-- `uint32_t` subtraction `a - b`. -/
def sub32 (a b : Nat) : Nat := (a + (U32 - b % U32)) % U32

/-- `uint32_t` decrement by one (as in `--x`). -/
def dec32 (a : Nat) : Nat := (a + (U32 - 1)) % U32

/-- Scheduling-policy identifiers from `config.h`. -/
def SCHEDULING_POLICY_PRIORITY : Nat := 0

def SCHEDULING_POLICY_RR : Nat := 1

def SCHEDULING_POLICY_EDF : Nat := 2

def SCHEDULING_POLICY_RMS : Nat := 3

/-- Event wait options from `ipc.h` (note: `EVENT_WAIT_ALL` is literally `0`
in the header). -/
def EVENT_WAIT_ALL : Nat := 0

def EVENT_WAIT_ANY : Nat := 1

def EVENT_CLEAR : Nat := 2

/-- `task_state_t` from `task.h`. -/
inductive TaskState where
  | ready
  | running
  | blocked
  | suspended
  | terminated
deriving Repr, DecidableEq

/-- `block_reason_t` from `task.h`. -/
inductive BlockReason where
  | reason_none
  | delay
  | semaphore
  | queue_full
  | queue_empty
  | event
  | mutex
deriving Repr, DecidableEq

/-- `task_stats_t` from `task.h`. -/
structure TaskStats where
  total_runtime : Nat
  last_start_time : Nat
  num_activations : Nat
  deadline_misses : Nat
  max_execution_time : Nat
deriving Repr, DecidableEq

/-- `task_t` from `task.h` (name, context handle and function pointer are
omitted; the intrusive `next`/`prev` pointers are represented by membership
in the explicit lists of the kernel state and of the IPC objects;
`block_object` keeps only the stashed message value used by queues). -/
structure Task where
  state : TaskState
  priority : Nat
  original_priority : Nat
  time_slice : Nat
  time_slice_count : Nat
  delay_until : Nat
  block_reason : BlockReason
  block_object : Option Nat
  period : Nat
  deadline : Nat
  next_release : Nat
  absolute_deadline : Nat
  stats : TaskStats
deriving Repr, DecidableEq

/-- Default TCB (all-zero, Ready), used for out-of-registry tids. -/
def defaultTask : Task :=
  { state := TaskState.ready
    priority := 0
    original_priority := 0
    time_slice := DEFAULT_TIME_SLICE
    time_slice_count := DEFAULT_TIME_SLICE
    delay_until := 0
    block_reason := BlockReason.reason_none
    block_object := none
    period := 0
    deadline := 0
    next_release := 0
    absolute_deadline := 0
    stats := ⟨0, 0, 0, 0, 0⟩ }

/-- `scheduler_stats_t` from `scheduler.h`.  The `cpu_load` float is kept
abstract as a natural number; the only operation the claims touch writes the
all-zero bit pattern (`memset`), i.e. `0`. -/
structure SchedulerStats where
  context_switches : Nat
  tasks_created : Nat
  tasks_deleted : Nat
  scheduler_invocations : Nat
  idle_time : Nat
  system_time : Nat
  cpu_load : Nat
  deadline_misses : Nat
deriving Repr, DecidableEq

/-- Global kernel state: the task registry of `task.c` (`tasks`, `current`,
`idle`) together with the scheduler queues and globals of `scheduler.c`. -/
structure Kernel where
  tasks : Nat → Task
  ready : Nat → List Nat
  blockedList : List Nat
  suspendedList : List Nat
  current : Option Nat
  idleTid : Nat
  policy : Nat
  lockCount : Nat
  schedRunning : Bool
  now : Nat
  stats : SchedulerStats

/-- Update the TCB of one tid in the registry. -/
def updTask (k : Kernel) (i : Nat) (f : Task → Task) : Kernel :=
  { k with tasks := fun j => if j = i then f (k.tasks i) else k.tasks j }

/-- Replace one ready list (one priority level). -/
def setReady (k : Kernel) (p : Nat) (l : List Nat) : Kernel :=
  { k with ready := fun j => if j = p then l else k.ready j }

/-- `list_append` on a ready list. -/
def pushReady (k : Kernel) (p : Nat) (t : Nat) : Kernel :=
  setReady k p (k.ready p ++ [t])

/-- `list_remove` on a ready list. -/
def eraseReady (k : Kernel) (p : Nat) (t : Nat) : Kernel :=
  setReady k p ((k.ready p).erase t)

/-!
## Scheduler (`scheduler.c`)
-/

/-- Embedding of `scheduler_update_task_state` (scheduler.c:509-597): move a
task between scheduler queues when its recorded state differs from
`new_state`.  If they are already equal the function returns 0 without
touching any queue. -/
def scheduler_update_task_state (k : Kernel) (tid : Nat) (new_state : TaskState) : Kernel × Int :=
  let t := k.tasks tid
  if t.state = new_state then (k, 0)
  else
    match t.state with
    | TaskState.running => (k, -1)
    | TaskState.terminated => (k, -1)
    | old =>
      let k1 :=
        match old with
        | TaskState.ready => eraseReady k t.priority tid
        | TaskState.blocked => { k with blockedList := k.blockedList.erase tid }
        | TaskState.suspended => { k with suspendedList := k.suspendedList.erase tid }
        | _ => k
      let k2 := updTask k1 tid (fun u => { u with state := new_state })
      match new_state with
      | TaskState.ready => (pushReady k2 ((k2.tasks tid).priority) tid, 0)
      | TaskState.running => (k2, -1)
      | TaskState.blocked => ({ k2 with blockedList := k2.blockedList ++ [tid] }, 0)
      | TaskState.suspended => ({ k2 with suspendedList := k2.suspendedList ++ [tid] }, 0)
      | TaskState.terminated => (k2, 0)

/-- Embedding of `scheduler_block_task` (scheduler.c:345-377).  In the C code
the `block_object` parameter is a pointer to the primitive; it overwrites any
message value a caller had stashed in the field just before blocking, so the
model records `none` (no message value) for it. -/
def scheduler_block_task (k : Kernel) (tid : Nat) (reason : BlockReason) : Kernel × Int :=
  if tid = k.idleTid then (k, -1)
  else
    let k1 := updTask k tid (fun t =>
      { t with
          block_reason := reason
          block_object := none
          state := TaskState.blocked })
    let k2 := eraseReady k1 ((k1.tasks tid).priority) tid
    ({ k2 with blockedList := k2.blockedList ++ [tid] }, 0)

/-- Embedding of `scheduler_unblock_task` (scheduler.c:382-414). -/
def scheduler_unblock_task (k : Kernel) (tid : Nat) : Kernel × Int :=
  if (k.tasks tid).state ≠ TaskState.blocked then (k, 0)
  else
    let k1 := updTask k tid (fun t =>
      { t with
          block_reason := BlockReason.reason_none
          block_object := none
          state := TaskState.ready })
    let k2 := { k1 with blockedList := k1.blockedList.erase tid }
    (pushReady k2 ((k2.tasks tid).priority) tid, 0)

/-- Head of the first non-empty list, as the priority-policy scan loop
(scheduler.c:253-261) computes it. -/
def firstHead : List (List Nat) → Option Nat
  | [] => none
  | [] :: ls => firstHead ls
  | (t :: _) :: _ => some t

/-- Priority-policy selection: scan ready lists 0..MAX_PRIORITY_LEVELS-1 and
take the head of the first non-empty one. -/
def priorityPick (rl : Nat → List Nat) : Option Nat :=
  firstHead ((List.range MAX_PRIORITY_LEVELS).map rl)

/-- Round-robin selection loop (scheduler.c:263-277): take the head of the
first non-empty ready list and rotate it to the tail of that list. -/
def rrScan (k : Kernel) : List Nat → Kernel × Option Nat
  | [] => (k, none)
  | i :: is =>
    match k.ready i with
    | [] => rrScan k is
    | t :: _ => (setReady k i (((k.ready i).erase t) ++ [t]), some t)

/-- The EDF scan accumulator loop (scheduler.c:286-301): walk the tasks of
the ready lists in scan order keeping the first task whose
`absolute_deadline` strictly improves the best seen so far, starting from
`UINT32_MAX`, and considering only tasks with `period > 0`. -/
def edfFold (tsk : Nat → Task) : List Nat → Option Nat → Nat → Option Nat
  | [], best, _ => best
  | t :: ts, best, bd =>
    if 0 < (tsk t).period ∧ (tsk t).absolute_deadline < bd then
      edfFold tsk ts (some t) (tsk t).absolute_deadline
    else edfFold tsk ts best bd

/-- All tids of the ready lists in EDF scan order: priority level ascending,
FIFO within a level. -/
def scanTids (rl : Nat → List Nat) : List Nat :=
  ((List.range MAX_PRIORITY_LEVELS).map rl).flatten

/-- EDF selection (scheduler.c:279-316): the EDF scan, falling back to the
priority scan when it found no task. -/
def edfPick (tsk : Nat → Task) (rl : Nat → List Nat) : Option Nat :=
  match edfFold tsk (scanTids rl) none UINT32_MAX with
  | some t => some t
  | none => priorityPick rl

/-- Whether the current task exists and is Running (the guard of the
scheduler-locked early return in `scheduler_get_next_task`). -/
def currentRunning (k : Kernel) : Bool :=
  match k.current with
  | some c => (k.tasks c).state = TaskState.running
  | none => false

/-- The `stats.scheduler_invocations++` at the top of
`scheduler_get_next_task`. -/
def bumpInvocations (k : Kernel) : Kernel :=
  { k with stats :=
    { k.stats with scheduler_invocations := k.stats.scheduler_invocations + 1 } }

/-- The `stats.context_switches++` in `scheduler_context_switch`. -/
def bumpSwitches (k : Kernel) : Kernel :=
  { k with stats :=
    { k.stats with context_switches := k.stats.context_switches + 1 } }

/-- Embedding of `scheduler_get_next_task` (scheduler.c:237-340): bump the
invocation counter; while the scheduler lock is held keep a Running current
task; otherwise dispatch on the policy and fall back to the idle task when
nothing is ready (or the policy is unknown). -/
def scheduler_get_next_task (k0 : Kernel) : Kernel × Option Nat :=
  let k := bumpInvocations k0
  if 0 < k.lockCount ∧ currentRunning k then (k, k.current)
  else
    let pr :=
      if k.policy = SCHEDULING_POLICY_PRIORITY then (k, priorityPick k.ready)
      else if k.policy = SCHEDULING_POLICY_RR then rrScan k (List.range MAX_PRIORITY_LEVELS)
      else if k.policy = SCHEDULING_POLICY_EDF then (k, edfPick k.tasks k.ready)
      else if k.policy = SCHEDULING_POLICY_RMS then (k, priorityPick k.ready)
      else (k, none)
    (pr.1, some (pr.2.getD pr.1.idleTid))

/-- The re-queueing of the outgoing Running task in `scheduler_context_switch`
(scheduler.c:450-478): under round-robin the slice counter is decremented
(`--time_slice_count`) and reset on reaching zero; in every branch the task is
marked Ready and `list_append`ed to its priority's ready list; then the
runtime statistics are updated with `uint32` arithmetic.  The C interleaves
these writes (slice and state, list append, then statistics); the single
task update here has the same net effect on every field: the appended list
reads only the priority, and the statistics writes read only fields the
earlier writes left unchanged. -/
def requeueCurrent (k : Kernel) (c : Nat) : Kernel :=
  if (k.tasks c).state = TaskState.running then
    let newCount :=
      if k.policy = SCHEDULING_POLICY_RR ∧ dec32 (k.tasks c).time_slice_count = 0 then
        (k.tasks c).time_slice
      else if k.policy = SCHEDULING_POLICY_RR then dec32 (k.tasks c).time_slice_count
      else (k.tasks c).time_slice_count
    let runtime := sub32 k.now (k.tasks c).stats.last_start_time
    let newMax :=
      if (k.tasks c).stats.max_execution_time < runtime then runtime
      else (k.tasks c).stats.max_execution_time
    let k1 := updTask k c (fun t =>
      { t with
          state := TaskState.ready
          time_slice_count := newCount
          stats :=
            { t.stats with
                total_runtime := add32 t.stats.total_runtime runtime
                max_execution_time := newMax } })
    pushReady k1 ((k.tasks c).priority) c
  else k

/-- The dispatch of the incoming task in `scheduler_context_switch`
(scheduler.c:480-493): mark Running, remove from its ready list, update its
statistics, make it current. -/
def dispatchNext (k : Kernel) (n : Nat) : Kernel :=
  let k1 := updTask k n (fun t => { t with state := TaskState.running })
  let k2 := eraseReady k1 ((k1.tasks n).priority) n
  let k3 := updTask k2 n (fun t =>
    { t with stats :=
        { t.stats with
            last_start_time := k2.now
            num_activations := t.stats.num_activations + 1 } })
  { k3 with current := some n }

/-- Embedding of `scheduler_context_switch` (scheduler.c:419-504), up to the
hardware context-switch call which has no kernel-state effect. -/
def scheduler_context_switch (k : Kernel) : Kernel × Int :=
  let current := k.current
  if k.schedRunning = false then (k, -1)
  else if 0 < k.lockCount then (k, 0)
  else
    let pr := scheduler_get_next_task k
    match pr.2 with
    | none => (pr.1, -1)
    | some next =>
      if current = some next then (pr.1, 0)
      else
        let k2 := bumpSwitches pr.1
        let k3 :=
          match current with
          | some c => requeueCurrent k2 c
          | none => k2
        (dispatchNext k3 next, 0)

/-- Embedding of `scheduler_reset_stats` (scheduler.c:737-752): save
`system_time`, `tasks_created`, `tasks_deleted`, `memset` the whole structure
to zero, restore the three saved fields. -/
def scheduler_reset_stats (s : SchedulerStats) : SchedulerStats :=
  { context_switches := 0
    tasks_created := s.tasks_created
    tasks_deleted := s.tasks_deleted
    scheduler_invocations := 0
    idle_time := 0
    system_time := s.system_time
    cpu_load := 0
    deadline_misses := 0 }

/-!
## Task API (`task.c`)
-/

/-- Embedding of `task_set_priority` (task.c:203-221).  Note that it assigns
BOTH `priority` and `original_priority`, and that the
`scheduler_update_task_state(task, task->state)` notification is made with
the task's current state, so it returns immediately without re-queueing. -/
def task_set_priority (k : Kernel) (tid : Nat) (priority : Nat) : Kernel × Int :=
  if MAX_PRIORITY_LEVELS ≤ priority then (k, -1)
  else
    let k1 := updTask k tid (fun t => { t with priority := priority, original_priority := priority })
    let pr := scheduler_update_task_state k1 tid ((k1.tasks tid).state)
    if pr.2 ≠ 0 then (pr.1, -1) else (pr.1, 0)

/-- Embedding of `task_yield` (task.c:306-309). -/
def task_yield (k : Kernel) : Kernel :=
  (scheduler_context_switch k).1

/-- Embedding of `task_delay` (task.c:314-346). -/
def task_delay (k : Kernel) (ticks : Nat) : Kernel × Int :=
  match k.current with
  | none => (k, -1)
  | some c =>
    if c = k.idleTid then (k, -1)
    else if ticks = 0 then (task_yield k, 0)
    else
      let k1 := updTask k c (fun t => { t with delay_until := add32 k.now ticks })
      let pr := scheduler_block_task k1 c BlockReason.delay
      if pr.2 ≠ 0 then (pr.1, -1)
      else ((scheduler_context_switch pr.1).1, 0)

/-- Embedding of `task_suspend` (task.c:238-266).  It writes
`task->state = TASK_STATE_SUSPENDED` BEFORE notifying the scheduler. -/
def task_suspend (k : Kernel) (tid : Nat) : Kernel × Int :=
  if tid = k.idleTid then (k, -1)
  else
    let k1 := updTask k tid (fun t => { t with state := TaskState.suspended })
    let pr := scheduler_update_task_state k1 tid TaskState.suspended
    if pr.2 ≠ 0 then (pr.1, -1)
    else if pr.1.current = some tid then (task_yield pr.1, 0)
    else (pr.1, 0)

/-- Embedding of `task_resume` (task.c:271-294).  It writes
`task->state = TASK_STATE_READY` BEFORE notifying the scheduler. -/
def task_resume (k : Kernel) (tid : Nat) : Kernel × Int :=
  if (k.tasks tid).state ≠ TaskState.suspended then (k, 0)
  else
    let k1 := updTask k tid (fun t => { t with state := TaskState.ready })
    let pr := scheduler_update_task_state k1 tid TaskState.ready
    if pr.2 ≠ 0 then (pr.1, -1) else (pr.1, 0)

/-!
## IPC primitives (`ipc.c`)

Each blocking call is embedded up to the point where the caller blocks; the
post-resume code path depends on what other tasks do in between and is
reported as a `blocked` outcome.
-/

/-- `semaphore_t` from `ipc.h` (name string omitted; the intrusive waiting
list is the list of waiting tids, head first). -/
structure Semaphore where
  count : Nat
  max_count : Nat
  waiting_tasks : List Nat
deriving Repr, DecidableEq

/-- Outcome of one `semaphore_take` call. -/
inductive TakeResult where
  | ok
  | timeout
  | blocked
  | err
deriving Repr, DecidableEq

/-- Embedding of `semaphore_take` (ipc.c:760-828).  Note the caller is
PREPENDED to `waiting_tasks` (`current->next = sem->waiting_tasks;
sem->waiting_tasks = current`). -/
def semaphore_take (k : Kernel) (s : Semaphore) (timeout : Nat) : Kernel × Semaphore × TakeResult :=
  if 0 < s.count then (k, { s with count := s.count - 1 }, TakeResult.ok)
  else if timeout = 0 then (k, s, TakeResult.timeout)
  else
    match k.current with
    | none => (k, s, TakeResult.err)
    | some cur =>
      let k1 :=
        if timeout ≠ MAX_TIMEOUT then
          updTask k cur (fun t => { t with delay_until := add32 k.now timeout })
        else k
      let s1 := { s with waiting_tasks := cur :: s.waiting_tasks }
      let pr := scheduler_block_task k1 cur BlockReason.semaphore
      if pr.2 ≠ 0 then (pr.1, s1, TakeResult.err)
      else ((scheduler_context_switch pr.1).1, s1, TakeResult.blocked)

/-- Outcome of one `semaphore_give` call. -/
inductive GiveResult where
  | woke (tid : Nat)
  | inc
  | at_max
deriving Repr, DecidableEq

/-- Embedding of `semaphore_give` (ipc.c:833-883): error at maximum count,
otherwise wake the HEAD of `waiting_tasks` (count unchanged), otherwise
increment the count. -/
def semaphore_give (k : Kernel) (s : Semaphore) : Kernel × Semaphore × GiveResult :=
  if s.max_count ≤ s.count then (k, s, GiveResult.at_max)
  else
    match s.waiting_tasks with
    | t :: rest =>
      let s1 := { s with waiting_tasks := rest }
      let pr := scheduler_unblock_task k t
      ((scheduler_context_switch pr.1).1, s1, GiveResult.woke t)
    | [] => (k, { s with count := s.count + 1 }, GiveResult.inc)

/-- `mutex_t` from `ipc.h` (name string omitted). -/
structure Mutex where
  locked : Bool
  owner : Option Nat
  waiting_tasks : List Nat
deriving Repr, DecidableEq

/-- Outcome of one `mutex_lock` call. -/
inductive LockResult where
  | ok
  | err
  | timeout
  | blocked
deriving Repr, DecidableEq

/-- Embedding of `mutex_lock` (ipc.c:1003-1105) up to the caller blocking.
The priority-inheritance step compares the caller's and the owner's
(effective) `priority` fields and boosts the owner through
`task_set_priority`. -/
def mutex_lock (k : Kernel) (m : Mutex) (timeout : Nat) : Kernel × Mutex × LockResult :=
  match k.current with
  | none => (k, m, LockResult.err)
  | some cur =>
    if m.locked ∧ m.owner = some cur then (k, m, LockResult.err)
    else if ¬ m.locked then (k, { m with locked := true, owner := some cur }, LockResult.ok)
    else if timeout = 0 then (k, m, LockResult.timeout)
    else
      let ownerTid := m.owner.getD 0
      let k1 :=
        if (k.tasks cur).priority < (k.tasks ownerTid).priority then
          (task_set_priority k ownerTid ((k.tasks cur).priority)).1
        else k
      let k2 :=
        if timeout ≠ MAX_TIMEOUT then
          updTask k1 cur (fun t => { t with delay_until := add32 k1.now timeout })
        else k1
      let m1 := { m with waiting_tasks := cur :: m.waiting_tasks }
      let pr := scheduler_block_task k2 cur BlockReason.mutex
      if pr.2 ≠ 0 then (pr.1, m1, LockResult.err)
      else ((scheduler_context_switch pr.1).1, m1, LockResult.blocked)

/-- The waiter-selection loop of `mutex_unlock` (ipc.c:1152-1161): the first
waiter whose priority value is strictly below every earlier one. -/
def findHighest (tsk : Nat → Task) (best : Nat) : List Nat → Nat
  | [] => best
  | t :: ts =>
    if (tsk t).priority < (tsk best).priority then findHighest tsk t ts
    else findHighest tsk best ts

/-- Embedding of `mutex_unlock` (ipc.c:1110-1201).  The restore step runs
only when `priority ≠ original_priority`; ownership is handed to the
selected waiter while the mutex stays locked. -/
def mutex_unlock (k : Kernel) (m : Mutex) : Kernel × Mutex × Int :=
  match k.current with
  | none => (k, m, -1)
  | some cur =>
    if ¬ m.locked then (k, m, -1)
    else if m.owner ≠ some cur then (k, m, -1)
    else
      let k1 :=
        if (k.tasks cur).priority ≠ (k.tasks cur).original_priority then
          (task_set_priority k cur ((k.tasks cur).original_priority)).1
        else k
      match m.waiting_tasks with
      | [] => (k1, { m with locked := false, owner := none }, 0)
      | h :: rest =>
        let highest := findHighest k1.tasks h rest
        let m1 := { m with waiting_tasks := (h :: rest).erase highest, owner := some highest }
        let pr := scheduler_unblock_task k1 highest
        ((scheduler_context_switch pr.1).1, m1, 0)

/-- `queue_t` from `ipc.h` (name string and `msg_size` omitted: messages are
abstract values, one per ring slot). -/
structure Queue where
  buffer : List Nat
  capacity : Nat
  count : Nat
  head : Nat
  tail : Nat
  waiting_send : List Nat
  waiting_recv : List Nat
deriving Repr, DecidableEq

/-- Outcome of one `queue_send` call. -/
inductive SendResult where
  | delivered (receiver : Nat) (msg : Nat)
  | enqueued
  | timeout
  | blocked
  | err
deriving Repr, DecidableEq

/-- Embedding of `queue_send` (ipc.c:4-114).  The branch structure follows
the C exactly: the waiting-receiver rendezvous is only examined INSIDE the
`count >= capacity` (queue full) branch; a send to a non-full queue always
stores into the ring. -/
def queue_send (k : Kernel) (q : Queue) (msg : Nat) (timeout : Nat) : Kernel × Queue × SendResult :=
  if q.capacity ≤ q.count then
    match q.waiting_recv with
    | r :: rest =>
      let q1 := { q with waiting_recv := rest }
      let pr := scheduler_unblock_task k r
      ((scheduler_context_switch pr.1).1, q1, SendResult.delivered r msg)
    | [] =>
      if timeout = 0 then (k, q, SendResult.timeout)
      else
        match k.current with
        | none => (k, q, SendResult.err)
        | some cur =>
          let k1 := updTask k cur (fun t => { t with block_object := some msg })
          let k2 :=
            if timeout ≠ MAX_TIMEOUT then
              updTask k1 cur (fun t => { t with delay_until := add32 k1.now timeout })
            else k1
          let q1 := { q with waiting_send := cur :: q.waiting_send }
          let pr := scheduler_block_task k2 cur BlockReason.queue_full
          if pr.2 ≠ 0 then (pr.1, q1, SendResult.err)
          else ((scheduler_context_switch pr.1).1, q1, SendResult.blocked)
  else
    (k,
     { q with
         buffer := q.buffer.set q.tail msg
         tail := (q.tail + 1) % q.capacity
         count := q.count + 1 },
     SendResult.enqueued)

/-- Outcome of one `queue_receive` call. -/
inductive RecvResult where
  | got (msg : Nat)
  | rendezvous (sender : Nat) (msg : Option Nat)
  | timeout
  | blocked
  | err
deriving Repr, DecidableEq

/-- Embedding of `queue_receive` (ipc.c:119-267).  The blocked receiver's
`block_object` holds the address of its output buffer in C, which has no
value-level counterpart here; the delivery into it is reported through the
sender's `delivered` outcome. -/
def queue_receive (k : Kernel) (q : Queue) (timeout : Nat) : Kernel × Queue × RecvResult :=
  if q.count = 0 then
    match q.waiting_send with
    | s :: rest =>
      let q1 := { q with waiting_send := rest }
      let stash := (k.tasks s).block_object
      let pr := scheduler_unblock_task k s
      ((scheduler_context_switch pr.1).1, q1, RecvResult.rendezvous s stash)
    | [] =>
      if timeout = 0 then (k, q, RecvResult.timeout)
      else
        match k.current with
        | none => (k, q, RecvResult.err)
        | some cur =>
          let k1 :=
            if timeout ≠ MAX_TIMEOUT then
              updTask k cur (fun t => { t with delay_until := add32 k.now timeout })
            else k
          let q1 := { q with waiting_recv := cur :: q.waiting_recv }
          let pr := scheduler_block_task k1 cur BlockReason.queue_empty
          if pr.2 ≠ 0 then (pr.1, q1, RecvResult.err)
          else ((scheduler_context_switch pr.1).1, q1, RecvResult.blocked)
  else
    let msgOut := q.buffer.getD q.head 0
    let q1 := { q with head := (q.head + 1) % q.capacity, count := q.count - 1 }
    match q1.waiting_send with
    | s :: rest =>
      let q2 := { q1 with waiting_send := rest }
      let stash := (k.tasks s).block_object
      let q3 :=
        match stash with
        | some v =>
          { q2 with
              buffer := q2.buffer.set q2.tail v
              tail := (q2.tail + 1) % q2.capacity
              count := q2.count + 1 }
        | none => q2
      let pr := scheduler_unblock_task k s
      ((scheduler_context_switch pr.1).1, q3, RecvResult.got msgOut)
    | [] => (k, q1, RecvResult.got msgOut)

/-- `event_group_t` from `ipc.h` (name string omitted). -/
structure EventGroup where
  flags : Nat
  waiting_tasks : List Nat
deriving Repr, DecidableEq

/-- Bitwise complement within 32 bits (`~x` on a `uint32_t`). -/
def not32 (x : Nat) : Nat := Nat.xor UINT32_MAX (Nat.land x UINT32_MAX)

/-- Outcome of one `event_group_wait` call:  `immediate r` is an immediate
return with value `r`, `zero` is the error/timeout-zero return, `blocked`
carries the packed word the caller stashed before blocking. -/
inductive EventWaitResult where
  | immediate (ret : Nat)
  | zero
  | blocked (stash : Nat)
deriving Repr, DecidableEq

/-- Embedding of `event_group_wait` (ipc.c:513-608) up to the caller
blocking.  The predicate test is written exactly as in the C:
`(options & EVENT_WAIT_ALL) != 0` selects the all-bits test, where
`EVENT_WAIT_ALL` is the literal `0` from `ipc.h`. -/
def event_group_wait (k : Kernel) (g : EventGroup) (flags : Nat) (options : Nat) (timeout : Nat) :
    Kernel × EventGroup × EventWaitResult :=
  if flags = 0 then (k, g, EventWaitResult.zero)
  else
    let condition_met : Bool :=
      if Nat.land options EVENT_WAIT_ALL != 0 then Nat.land g.flags flags == flags
      else Nat.land g.flags flags != 0
    if condition_met then
      let return_flags := Nat.land g.flags flags
      let g1 :=
        if Nat.land options EVENT_CLEAR != 0 then
          { g with flags := Nat.land g.flags (not32 flags) }
        else g
      (k, g1, EventWaitResult.immediate return_flags)
    else if timeout = 0 then (k, g, EventWaitResult.zero)
    else
      match k.current with
      | none => (k, g, EventWaitResult.zero)
      | some cur =>
        let stash := Nat.lor flags (Nat.shiftLeft options 24)
        let k1 := updTask k cur (fun t => { t with block_object := some stash })
        let k2 :=
          if timeout ≠ MAX_TIMEOUT then
            updTask k1 cur (fun t => { t with delay_until := add32 k1.now timeout })
          else k1
        let g1 := { g with waiting_tasks := cur :: g.waiting_tasks }
        let pr := scheduler_block_task k2 cur BlockReason.event
        if pr.2 ≠ 0 then (pr.1, g1, EventWaitResult.zero)
        else ((scheduler_context_switch pr.1).1, g1, EventWaitResult.blocked stash)

/-!
## Specification-side notions used to state the claims
-/

/-- The EDF scan's candidate condition on a tid: periodic (`period > 0`) with
an `absolute_deadline` strictly below `UINT32_MAX` (the scan's initial
bound, which the strict `<` comparison can never admit). -/
def edfCandB (tsk : Nat → Task) (t : Nat) : Bool :=
  decide (0 < (tsk t).period) && decide ((tsk t).absolute_deadline < UINT32_MAX)

/-- The deadline key the EDF policy minimises. -/
def dlKey (tsk : Nat → Task) (t : Nat) : Nat := (tsk t).absolute_deadline

/-- The EDF candidates in scan order. -/
def edfCands (tsk : Nat → Task) (rl : Nat → List Nat) : List Nat :=
  (scanTids rl).filter (edfCandB tsk)

/-- Spec-side characterisation of “the element with the smallest key,
earliest in the list on ties”: the list splits around `r` with every element
before `r` strictly larger and every element after `r` no smaller. -/
def IsFirstMin (key : Nat → Nat) (l : List Nat) (r : Nat) : Prop :=
  ∃ l₁ l₂, l = l₁ ++ r :: l₂ ∧ (∀ x ∈ l₁, key r < key x) ∧ (∀ x ∈ l₂, key r ≤ key x)

/-- The EDF scan specialised to a pure key function (proof vehicle relating
`edfFold` to `IsFirstMin`). -/
def minFold (key : Nat → Nat) : List Nat → Option Nat → Nat → Option Nat
  | [], best, _ => best
  | x :: xs, best, bd =>
    if key x < bd then minFold key xs (some x) (key x) else minFold key xs best bd

/-!
## Concrete states used by the counterexamples and witnesses
-/

/-- A minimal kernel state: empty queues, no tasks beyond the defaults, the
scheduler started with the Priority policy at tick 0. -/
def kBase : Kernel :=
  { tasks := fun _ => defaultTask
    ready := fun _ => []
    blockedList := []
    suspendedList := []
    current := none
    idleTid := 0
    policy := SCHEDULING_POLICY_PRIORITY
    lockCount := 0
    schedRunning := true
    now := 0
    stats := ⟨0, 0, 0, 0, 0, 0, 0, 0⟩ }

/-- Priority-inheritance scenario: tid 0 is the owner O (priority 5), tid 1
is the running high-priority task H (priority 1), tid 2 is idle. -/
def kC1 : Kernel :=
  { kBase with
      tasks := fun i =>
        if i = 0 then { defaultTask with state := TaskState.ready, priority := 5, original_priority := 5 }
        else if i = 1 then { defaultTask with state := TaskState.running, priority := 1, original_priority := 1 }
        else if i = 2 then { defaultTask with state := TaskState.ready, priority := 15, original_priority := 15 }
        else defaultTask
      ready := fun p => if p = 5 then [0] else if p = 15 then [2] else []
      current := some 1
      idleTid := 2 }

/-- The mutex of the priority-inheritance scenario, held by tid 0. -/
def mC1 : Mutex := { locked := true, owner := some 0, waiting_tasks := [] }

/-- Queue-rendezvous scenario: tid 7 is blocked waiting to receive from an
EMPTY queue of capacity 1; tid 8 is the caller about to send. -/
def kC2 : Kernel :=
  { kBase with
      tasks := fun i =>
        if i = 7 then { defaultTask with state := TaskState.blocked, block_reason := BlockReason.queue_empty, priority := 2 }
        else defaultTask
      blockedList := [7]
      current := some 8
      idleTid := 0 }

/-- The empty capacity-1 queue of the rendezvous scenario, with tid 7 in its
receiver wait set. -/
def qC2 : Queue :=
  { buffer := [0], capacity := 1, count := 0, head := 0, tail := 0
    waiting_send := [], waiting_recv := [7] }

/-- Resume scenario: tid 1 is Suspended and sits in the suspended queue. -/
def kC3a : Kernel :=
  { kBase with
      tasks := fun i =>
        if i = 1 then { defaultTask with state := TaskState.suspended, priority := 3, original_priority := 3 }
        else defaultTask
      suspendedList := [1] }

/-- Suspend scenario: tid 4 is Ready and sits in ready queue 2. -/
def kC3b : Kernel :=
  { kBase with
      tasks := fun i =>
        if i = 4 then { defaultTask with state := TaskState.ready, priority := 2, original_priority := 2 }
        else defaultTask
      ready := fun p => if p = 2 then [4] else [] }

/-- Semaphore scenario: a kernel whose current task is tid 1 (idle is 9). -/
def kC4a : Kernel := { kBase with current := some 1, idleTid := 9 }

/-- Semaphore scenario: a kernel whose current task is tid 2 (idle is 9). -/
def kC4b : Kernel := { kBase with current := some 2, idleTid := 9 }

/-- An exhausted binary semaphore with no waiters yet. -/
def sC4 : Semaphore := { count := 0, max_count := 1, waiting_tasks := [] }

/-- Preemption scenario for the context switch: tid 1 (priority 1) is
Running, tid 2 (priority 1) is Ready on the same level, tid 0 (priority 0)
is Ready, tid 3 is idle. -/
def kC5 : Kernel :=
  { kBase with
      tasks := fun i =>
        if i = 0 then { defaultTask with state := TaskState.ready, priority := 0 }
        else if i = 1 then { defaultTask with state := TaskState.running, priority := 1 }
        else if i = 2 then { defaultTask with state := TaskState.ready, priority := 1 }
        else if i = 3 then { defaultTask with state := TaskState.ready, priority := 15 }
        else defaultTask
      ready := fun p => if p = 0 then [0] else if p = 1 then [2] else if p = 15 then [3] else []
      current := some 1
      idleTid := 3 }

/-- EDF boundary scenario: tid 5 is the only Ready periodic task but its
`absolute_deadline` is `UINT32_MAX`; tid 6 is Ready and aperiodic at a lower
priority level. -/
def kC6 : Kernel :=
  { kBase with
      policy := SCHEDULING_POLICY_EDF
      tasks := fun i =>
        if i = 5 then { defaultTask with state := TaskState.ready, priority := 1, period := 10, deadline := 5, absolute_deadline := UINT32_MAX }
        else if i = 6 then { defaultTask with state := TaskState.ready, priority := 0 }
        else defaultTask
      ready := fun p => if p = 0 then [6] else if p = 1 then [5] else [] }

/-- EDF witness scenario: two Ready periodic tasks on level 0, deadlines 100
and 50. -/
def kC6w : Kernel :=
  { kBase with
      policy := SCHEDULING_POLICY_EDF
      tasks := fun i =>
        if i = 1 then { defaultTask with state := TaskState.ready, period := 10, absolute_deadline := 100 }
        else if i = 2 then { defaultTask with state := TaskState.ready, period := 10, absolute_deadline := 50 }
        else defaultTask
      ready := fun p => if p = 0 then [1, 2] else [] }

/-- Event-group scenario: flag bit 0 is set, bits {0,1} are wanted. -/
def gC7 : EventGroup := { flags := 1, waiting_tasks := [] }

/-- A semaphore for the bounds witness. -/
def sC8 : Semaphore := { count := 1, max_count := 2, waiting_tasks := [] }

/-- A queue for the bounds witness. -/
def qC8 : Queue :=
  { buffer := [3, 0], capacity := 2, count := 1, head := 0, tail := 1
    waiting_send := [], waiting_recv := [] }

/-- Delay/yield scenario: tid 1 is the Running current task, idle is 0. -/
def kC9 : Kernel :=
  { kBase with
      tasks := fun i =>
        if i = 1 then { defaultTask with state := TaskState.running, priority := 4 }
        else defaultTask
      current := some 1 }

/-!
## Theorems
-/

/-- C10: `scheduler_reset_stats` zeroes every statistics field except
`system_time`, `tasks_created` and `tasks_deleted`, which keep exactly their
previous values. -/
theorem C10_reset_stats_frame (s : SchedulerStats) :
    (scheduler_reset_stats s).context_switches = 0 ∧
    (scheduler_reset_stats s).scheduler_invocations = 0 ∧
    (scheduler_reset_stats s).idle_time = 0 ∧
    (scheduler_reset_stats s).cpu_load = 0 ∧
    (scheduler_reset_stats s).deadline_misses = 0 ∧
    (scheduler_reset_stats s).system_time = s.system_time ∧
    (scheduler_reset_stats s).tasks_created = s.tasks_created ∧
    (scheduler_reset_stats s).tasks_deleted = s.tasks_deleted := by
  simp [scheduler_reset_stats]

/-- C1: evaluation of the priority-inheritance scenario.  When H (priority 1)
blocks on the mutex held by O (original priority 5), O's effective priority
is raised to 1 — but `task_set_priority` also overwrites O's
`original_priority` with 1, so the restore step in `mutex_unlock`
(guarded by `priority ≠ original_priority`) never fires and O keeps priority
1 instead of returning to 5. -/
theorem C1_inheritance_boost_never_restored :
    ((mutex_lock kC1 mC1 100).1.tasks 0).priority = 1 ∧
    ((mutex_lock kC1 mC1 100).1.tasks 0).original_priority = 1 ∧
    (mutex_lock kC1 mC1 100).2.2 = LockResult.blocked ∧
    ((mutex_unlock (mutex_lock kC1 mC1 100).1 (mutex_lock kC1 mC1 100).2.1).1.tasks 0).priority = 1 ∧
    ((mutex_unlock (mutex_lock kC1 mC1 100).1 (mutex_lock kC1 mC1 100).2.1).1.tasks 0).priority ≠ 5 ∧
    (mutex_unlock (mutex_lock kC1 mC1 100).1 (mutex_lock kC1 mC1 100).2.1).2.2 = 0 ∧
    (mutex_unlock (mutex_lock kC1 mC1 100).1 (mutex_lock kC1 mC1 100).2.1).2.1.owner = some 1 := by
  decide

/-- C2: evaluation of the rendezvous scenario.  A `queue_send` to a capacity-1
queue that is EMPTY but has a waiting receiver (tid 7) stores the message in
the ring (`count` becomes 1) and leaves the receiver blocked, because the
code only examines `waiting_recv` inside the queue-full branch. -/
theorem C2_send_with_waiting_receiver_enqueues :
    (queue_send kC2 qC2 42 100).2.2 = SendResult.enqueued ∧
    (queue_send kC2 qC2 42 100).2.1.count = 1 ∧
    (queue_send kC2 qC2 42 100).2.1.waiting_recv = [7] ∧
    ((queue_send kC2 qC2 42 100).1.tasks 7).state = TaskState.blocked ∧
    (queue_send kC2 qC2 42 100).1.blockedList = [7] := by
  decide

/-- C3: evaluation of the suspend/resume scenarios.  `task_resume` of a
Suspended task sets its state to Ready but leaves it in the suspended queue
and in no ready queue, and `task_suspend` of a Ready task sets its state to
Suspended but leaves it in its ready queue and not in the suspended queue:
both write `task->state` before calling `scheduler_update_task_state`, which
then sees old state = new state and moves nothing. -/
theorem C3_suspend_resume_queue_membership_bug :
    ((task_resume kC3a 1).1.tasks 1).state = TaskState.ready ∧
    (task_resume kC3a 1).1.suspendedList = [1] ∧
    (task_resume kC3a 1).1.ready 3 = [] ∧
    (task_resume kC3a 1).2 = 0 ∧
    ((task_suspend kC3b 4).1.tasks 4).state = TaskState.suspended ∧
    (task_suspend kC3b 4).1.ready 2 = [4] ∧
    (task_suspend kC3b 4).1.suspendedList = [] ∧
    (task_suspend kC3b 4).2 = 0 := by
  decide

/-- C7: evaluation of the event-group scenario.  With flags = 0b0001 and
wanted = 0b0011, a wait that passes `EVENT_WAIT_ALL` (the literal 0 of
`ipc.h`) returns immediately with the matching bit instead of blocking,
because `(options & EVENT_WAIT_ALL) != 0` is identically false and the
wait-any test is used. -/
theorem C7_wait_all_is_treated_as_wait_any :
    Nat.land gC7.flags 3 ≠ 3 ∧
    (event_group_wait kBase gC7 3 EVENT_WAIT_ALL 100).2.2 = EventWaitResult.immediate 1 ∧
    (event_group_wait kBase gC7 3 EVENT_WAIT_ALL 100).2.1.flags = 1 ∧
    (event_group_wait kBase gC7 3 EVENT_WAIT_ALL 100).2.1.waiting_tasks = [] := by
  decide

/-- Blocking never fails for a non-idle task: `scheduler_block_task` returns
0 when the tid is not the idle tid. -/
theorem scheduler_block_task_ret_ok (k : Kernel) (t : Nat) (r : BlockReason)
    (h : t ≠ k.idleTid) : (scheduler_block_task k t r).2 = 0 := by
  simp [scheduler_block_task, h]

/-- A `semaphore_take` that finds the count exhausted and a non-zero timeout
prepends the caller to the wait list and reports `blocked`. -/
theorem semaphore_take_blocks (k : Kernel) (s : Semaphore) (timeout t : Nat)
    (hc : s.count = 0) (hto : timeout ≠ 0)
    (hcur : k.current = some t) (hid : t ≠ k.idleTid) :
    (semaphore_take k s timeout).2.1 = { s with waiting_tasks := t :: s.waiting_tasks } ∧
    (semaphore_take k s timeout).2.2 = TakeResult.blocked := by
  unfold semaphore_take
  rw [hc]
  simp only [lt_irrefl, if_false, hto, ite_false, hcur]
  by_cases hmt : timeout ≠ MAX_TIMEOUT
  · rw [if_pos hmt]
    have hret : (scheduler_block_task
        (updTask k t (fun u => { u with delay_until := add32 k.now timeout })) t
        BlockReason.semaphore).2 = 0 :=
      scheduler_block_task_ret_ok _ t _ hid
    simp [hret]
  · rw [if_neg hmt]
    have hret : (scheduler_block_task k t BlockReason.semaphore).2 = 0 :=
      scheduler_block_task_ret_ok _ t _ hid
    simp [hret]

/-- C4 (counterexample): tid 1 blocks first, tid 2 blocks second, yet
`semaphore_give` wakes tid 2 — the most recently enqueued waiter — so the
wait set is not served FIFO. -/
theorem C4_give_wakes_newest_not_oldest :
    (semaphore_take kC4a sC4 50).2.1.waiting_tasks = [1] ∧
    (semaphore_take kC4b (semaphore_take kC4a sC4 50).2.1 50).2.1.waiting_tasks = [2, 1] ∧
    (semaphore_give kBase (semaphore_take kC4b (semaphore_take kC4a sC4 50).2.1 50).2.1).2.2
      = GiveResult.woke 2 ∧
    (semaphore_give kBase (semaphore_take kC4b (semaphore_take kC4a sC4 50).2.1 50).2.1).2.2
      ≠ GiveResult.woke 1 := by
  decide

/-- C4 (amended): the semaphore wait set is a LIFO stack: `semaphore_take`
pushes the blocking caller at the head of `waiting_tasks` and
`semaphore_give` wakes the head, so when T1 blocks before T2 and both still
wait, the next give wakes T2, the task that blocked most recently. -/
theorem C4_semaphore_wait_list_is_lifo
    (k1 k2 k3 : Kernel) (s : Semaphore) (t1 t2 to1 to2 : Nat)
    (hc : s.count = 0) (hmax : 0 < s.max_count)
    (hto1 : to1 ≠ 0) (hto2 : to2 ≠ 0)
    (hcur1 : k1.current = some t1) (hid1 : t1 ≠ k1.idleTid)
    (hcur2 : k2.current = some t2) (hid2 : t2 ≠ k2.idleTid) :
    (semaphore_take k2 (semaphore_take k1 s to1).2.1 to2).2.1.waiting_tasks
      = t2 :: t1 :: s.waiting_tasks ∧
    (semaphore_give k3 (semaphore_take k2 (semaphore_take k1 s to1).2.1 to2).2.1).2.2
      = GiveResult.woke t2 := by
  obtain ⟨h1, -⟩ := semaphore_take_blocks k1 s to1 t1 hc hto1 hcur1 hid1
  have hc1 : (semaphore_take k1 s to1).2.1.count = 0 := by rw [h1]; exact hc
  obtain ⟨h2, -⟩ := semaphore_take_blocks k2 _ to2 t2 hc1 hto2 hcur2 hid2
  rw [h2, h1]
  refine ⟨rfl, ?_⟩
  unfold semaphore_give
  have hnle : ¬ s.max_count ≤ s.count := by omega
  simp [hnle]

/-- C4 (witness): the LIFO theorem applied to the concrete two-taker
scenario. -/
theorem C4_semaphore_wait_list_is_lifo_witness :
    sC4.count = 0 ∧ 0 < sC4.max_count ∧ (50 : Nat) ≠ 0 ∧
    kC4a.current = some 1 ∧ (1 : Nat) ≠ kC4a.idleTid ∧
    kC4b.current = some 2 ∧ (2 : Nat) ≠ kC4b.idleTid ∧
    ((semaphore_take kC4b (semaphore_take kC4a sC4 50).2.1 50).2.1.waiting_tasks
        = 2 :: 1 :: sC4.waiting_tasks ∧
      (semaphore_give kBase (semaphore_take kC4b (semaphore_take kC4a sC4 50).2.1 50).2.1).2.2
        = GiveResult.woke 2) :=
  ⟨rfl, by decide, by decide, rfl, by decide, rfl, by decide,
    C4_semaphore_wait_list_is_lifo kC4a kC4b kBase sC4 1 2 50 50 rfl (by decide)
      (by decide) (by decide) rfl (by decide) rfl (by decide)⟩

/-- C8: the count bounds are preserved by every semaphore and queue
operation (counts are naturals, so `0 ≤ count` holds by construction):
`semaphore_take` leaves an exhausted count at 0 and never exceeds
`max_count`; `semaphore_give` refuses to grow the count past `max_count`
(and does not grow it at all at the maximum); `queue_send` and
`queue_receive` keep `count ≤ capacity`. -/
theorem C8_ipc_count_bounds
    (k : Kernel) (s : Semaphore) (q : Queue) (toS toQ toR msg : Nat)
    (hs : s.count ≤ s.max_count) (hq : q.count ≤ q.capacity) :
    (semaphore_take k s toS).2.1.count ≤ (semaphore_take k s toS).2.1.max_count ∧
    (semaphore_give k s).2.1.count ≤ (semaphore_give k s).2.1.max_count ∧
    (queue_send k q msg toQ).2.1.count ≤ (queue_send k q msg toQ).2.1.capacity ∧
    (queue_receive k q toR).2.1.count ≤ (queue_receive k q toR).2.1.capacity ∧
    (s.count = 0 → (semaphore_take k s toS).2.1.count = 0) ∧
    (s.count = s.max_count → (semaphore_give k s).2.1.count = s.count) := by
  refine ⟨?_, ?_, ?_, ?_, ?_, ?_⟩
  · unfold semaphore_take
    repeat' split
    all_goals (try simp_all)
    all_goals (repeat' split)
    all_goals (try simp_all)
    all_goals omega
  · unfold semaphore_give
    repeat' split
    all_goals (try simp_all)
    all_goals (repeat' split)
    all_goals (try simp_all)
    all_goals omega
  · unfold queue_send
    repeat' split
    all_goals (try simp_all)
    all_goals (repeat' split)
    all_goals (try simp_all)
    all_goals omega
  · unfold queue_receive
    repeat' split
    all_goals (try simp_all)
    all_goals (repeat' split)
    all_goals (try simp_all)
    all_goals omega
  · intro h0
    unfold semaphore_take
    repeat' split
    all_goals (try simp_all)
    all_goals (repeat' split)
    all_goals (try simp_all)
  · intro hm
    unfold semaphore_give
    repeat' split
    all_goals (try simp_all)
    all_goals omega

/-- `rrScan` only rotates ready lists: every other kernel component is
untouched. -/
theorem rrScan_proj (k : Kernel) (l : List Nat) :
    ((rrScan k l).1).tasks = k.tasks ∧ ((rrScan k l).1).current = k.current ∧
    ((rrScan k l).1).idleTid = k.idleTid ∧ ((rrScan k l).1).now = k.now ∧
    ((rrScan k l).1).policy = k.policy ∧ ((rrScan k l).1).blockedList = k.blockedList ∧
    ((rrScan k l).1).suspendedList = k.suspendedList := by
  induction l with
  | nil => exact ⟨rfl, rfl, rfl, rfl, rfl, rfl, rfl⟩
  | cons i is ih =>
    unfold rrScan
    cases h : k.ready i with
    | nil => simpa [h] using ih
    | cons t ts => simp [h, setReady]

/-- `scheduler_get_next_task` changes no kernel component other than the
statistics and (under round-robin) the order within ready lists. -/
theorem get_next_proj (k : Kernel) :
    ((scheduler_get_next_task k).1).tasks = k.tasks ∧
    ((scheduler_get_next_task k).1).current = k.current ∧
    ((scheduler_get_next_task k).1).idleTid = k.idleTid ∧
    ((scheduler_get_next_task k).1).now = k.now ∧
    ((scheduler_get_next_task k).1).policy = k.policy ∧
    ((scheduler_get_next_task k).1).blockedList = k.blockedList ∧
    ((scheduler_get_next_task k).1).suspendedList = k.suspendedList := by
  simp only [scheduler_get_next_task]
  split
  · exact ⟨rfl, rfl, rfl, rfl, rfl, rfl, rfl⟩
  · split_ifs
    · exact ⟨rfl, rfl, rfl, rfl, rfl, rfl, rfl⟩
    · exact rrScan_proj _ _
    · exact ⟨rfl, rfl, rfl, rfl, rfl, rfl, rfl⟩
    · exact ⟨rfl, rfl, rfl, rfl, rfl, rfl, rfl⟩
    · exact ⟨rfl, rfl, rfl, rfl, rfl, rfl, rfl⟩

/-- Per-task effect of the re-queue step: only the state (to Ready), the
slice counter and the statistics of the outgoing task can change. -/
theorem requeueCurrent_tasks_pre (k : Kernel) (c t : Nat) :
    ((requeueCurrent k c).tasks t).delay_until = (k.tasks t).delay_until ∧
    ((requeueCurrent k c).tasks t).block_reason = (k.tasks t).block_reason ∧
    ((requeueCurrent k c).tasks t).block_object = (k.tasks t).block_object ∧
    ((requeueCurrent k c).tasks t).priority = (k.tasks t).priority ∧
    (((requeueCurrent k c).tasks t).state = (k.tasks t).state ∨
      ((requeueCurrent k c).tasks t).state = TaskState.ready) := by
  simp only [requeueCurrent]
  split
  · simp only [pushReady, setReady, updTask]
    by_cases htc : t = c
    · subst htc; simp
    · simp [htc]
  · simp

/-- Per-task effect of the dispatch step: only the state (to Running) and
the statistics of the incoming task can change. -/
theorem dispatchNext_tasks_pre (k : Kernel) (n t : Nat) :
    ((dispatchNext k n).tasks t).delay_until = (k.tasks t).delay_until ∧
    ((dispatchNext k n).tasks t).block_reason = (k.tasks t).block_reason ∧
    ((dispatchNext k n).tasks t).block_object = (k.tasks t).block_object ∧
    ((dispatchNext k n).tasks t).priority = (k.tasks t).priority ∧
    (((dispatchNext k n).tasks t).state = (k.tasks t).state ∨
      ((dispatchNext k n).tasks t).state = TaskState.running) := by
  unfold dispatchNext
  simp only [updTask, eraseReady, setReady]
  by_cases htn : t = n
  · subst htn; simp
  · simp [htn]

/-- A context switch never touches a task's `delay_until` or `block_reason`,
and never makes a task Blocked. -/
theorem ctx_switch_tasks_pre (k : Kernel) (t : Nat) :
    (((scheduler_context_switch k).1).tasks t).delay_until = (k.tasks t).delay_until ∧
    (((scheduler_context_switch k).1).tasks t).block_reason = (k.tasks t).block_reason ∧
    ((k.tasks t).state ≠ TaskState.blocked →
      (((scheduler_context_switch k).1).tasks t).state ≠ TaskState.blocked) := by
  obtain ⟨htk, -⟩ := get_next_proj k
  have hbump : (bumpSwitches (scheduler_get_next_task k).1).tasks t = k.tasks t := by
    simpa [bumpSwitches] using congrFun htk t
  simp only [scheduler_context_switch]
  split
  · exact ⟨rfl, rfl, fun h => h⟩
  split
  · exact ⟨rfl, rfl, fun h => h⟩
  split
  · rw [htk]
    exact ⟨rfl, rfl, fun h => h⟩
  rename_i next hnexteq
  split
  · rw [htk]
    exact ⟨rfl, rfl, fun h => h⟩
  cases hcur : k.current with
  | none =>
    have hd := dispatchNext_tasks_pre (bumpSwitches (scheduler_get_next_task k).1) next t
    refine ⟨?_, ?_, ?_⟩
    · simpa [hbump] using hd.1
    · simpa [hbump] using hd.2.1
    · intro h
      rcases hd.2.2.2.2 with h5 | h5
      · simpa [h5, hbump] using h
      · simp [h5]
  | some c =>
    have hr := requeueCurrent_tasks_pre (bumpSwitches (scheduler_get_next_task k).1) c t
    have hd := dispatchNext_tasks_pre
      (requeueCurrent (bumpSwitches (scheduler_get_next_task k).1) c) next t
    refine ⟨?_, ?_, ?_⟩
    · simpa [hr.1, hbump] using hd.1
    · simpa [hr.2.1, hbump] using hd.2.1
    · intro h
      rcases hd.2.2.2.2 with h5 | h5
      · rcases hr.2.2.2.2 with h6 | h6
        · simpa [h5, h6, hbump] using h
        · simp [h5, h6]
      · simp [h5]

/-- `rrScan` only rotates within a ready list, so membership in each ready
list is unchanged. -/
theorem rrScan_ready_mem (k : Kernel) (l : List Nat) (x i : Nat) :
    x ∈ ((rrScan k l).1).ready i ↔ x ∈ k.ready i := by
  induction l with
  | nil => exact Iff.rfl
  | cons j js ih =>
    unfold rrScan
    cases h : k.ready j with
    | nil => exact ih
    | cons hd tl =>
      simp only [setReady]
      by_cases hij : i = j
      · subst hij
        simp only [if_pos rfl]
        rw [h, List.erase_cons_head]
        simp [List.mem_append, or_comm]
      · simp [hij]

/-- `scheduler_get_next_task` preserves membership in every ready list. -/
theorem get_next_ready_mem (k : Kernel) (x i : Nat) :
    x ∈ ((scheduler_get_next_task k).1).ready i ↔ x ∈ k.ready i := by
  simp only [scheduler_get_next_task]
  split
  · exact Iff.rfl
  · split_ifs
    · exact Iff.rfl
    · exact rrScan_ready_mem _ _ x i
    · exact Iff.rfl
    · exact Iff.rfl
    · exact Iff.rfl

/-- Ready lists after the re-queue step: the outgoing Running task is
appended at the TAIL of its priority's list; other lists are unchanged. -/
theorem requeueCurrent_ready (k : Kernel) (c : Nat)
    (h : (k.tasks c).state = TaskState.running) :
    (requeueCurrent k c).ready =
      fun i => if i = (k.tasks c).priority then k.ready ((k.tasks c).priority) ++ [c]
               else k.ready i := by
  funext i
  simp [requeueCurrent, h, pushReady, setReady, updTask]

/-- Effect of the re-queue step on the outgoing task itself: it becomes
Ready, and its slice counter is reset on round-robin slice expiry,
decremented under round-robin otherwise, and untouched under any other
policy. -/
theorem requeueCurrent_slice (k : Kernel) (c : Nat)
    (h : (k.tasks c).state = TaskState.running) :
    ((requeueCurrent k c).tasks c).state = TaskState.ready ∧
    ((requeueCurrent k c).tasks c).time_slice_count =
      (if k.policy = SCHEDULING_POLICY_RR ∧ dec32 (k.tasks c).time_slice_count = 0 then
        (k.tasks c).time_slice
      else if k.policy = SCHEDULING_POLICY_RR then dec32 (k.tasks c).time_slice_count
      else (k.tasks c).time_slice_count) := by
  simp [requeueCurrent, h, pushReady, setReady, updTask]

/-- Ready lists after the dispatch step: the incoming task is removed from
its priority's list; other lists are unchanged. -/
theorem dispatchNext_ready (k : Kernel) (n : Nat) :
    (dispatchNext k n).ready =
      fun i => if i = (k.tasks n).priority then (k.ready ((k.tasks n).priority)).erase n
               else k.ready i := by
  funext i
  simp [dispatchNext, eraseReady, setReady, updTask]

/-- The dispatch step does not change any other task's TCB. -/
theorem dispatchNext_tasks_other (k : Kernel) (n t : Nat) (h : t ≠ n) :
    (dispatchNext k n).tasks t = k.tasks t := by
  simp [dispatchNext, eraseReady, setReady, updTask, h]

/-- Erasing an element other than `c` from a list that ends in `c` keeps the
trailing `c`. -/
theorem erase_append_singleton (l : List Nat) (n c : Nat) (h : n ≠ c) :
    (l ++ [c]).erase n = l.erase n ++ [c] := by
  by_cases hn : n ∈ l
  · exact List.erase_append_left _ hn
  · rw [List.erase_append_right _ hn, List.erase_of_not_mem hn]
    simp [List.erase_cons, Ne.symm h]

/-- C5 (counterexample): under the Priority policy, tid 1 (Running,
priority 1) is preempted by tid 0 (priority 0) with no round-robin slice
expiry, yet it ends up BEHIND its equal-priority sibling tid 2: the ready
list of level 1 becomes [2, 1], whose head is not tid 1. -/
theorem C5_preempted_task_goes_to_tail_cex :
    (scheduler_get_next_task kC5).2 = some 0 ∧
    ((scheduler_context_switch kC5).1).ready 1 = [2, 1] ∧
    (((scheduler_context_switch kC5).1).ready 1).head? ≠ some 1 := by
  decide

/-- C5 (amended): whenever the outgoing current task `c` was Running and the
switch picks a different task `n`, `c` is appended to the TAIL of its
priority's ready queue — both with and without a round-robin slice expiry —
so equal-priority tasks already Ready are selected before it; slice expiry
additionally resets the slice counter (and a round-robin switch without
expiry stores the decremented counter). -/
theorem C5_preempted_task_requeued_at_tail
    (k : Kernel) (c n : Nat)
    (hrun : k.schedRunning = true) (hlock : k.lockCount = 0)
    (hcur : k.current = some c) (hstate : (k.tasks c).state = TaskState.running)
    (hnext : (scheduler_get_next_task k).2 = some n) (hne : n ≠ c)
    (hnot : ∀ i, c ∉ k.ready i) :
    (∃ l, ((scheduler_context_switch k).1).ready ((k.tasks c).priority) = l ++ [c] ∧ c ∉ l) ∧
    (((scheduler_context_switch k).1).tasks c).state = TaskState.ready ∧
    (k.policy = SCHEDULING_POLICY_RR ∧ dec32 (k.tasks c).time_slice_count = 0 →
      (((scheduler_context_switch k).1).tasks c).time_slice_count = (k.tasks c).time_slice) ∧
    (k.policy = SCHEDULING_POLICY_RR ∧ dec32 (k.tasks c).time_slice_count ≠ 0 →
      (((scheduler_context_switch k).1).tasks c).time_slice_count
        = dec32 (k.tasks c).time_slice_count) ∧
    (k.policy ≠ SCHEDULING_POLICY_RR →
      (((scheduler_context_switch k).1).tasks c).time_slice_count
        = (k.tasks c).time_slice_count) := by
  obtain ⟨htk, -, -, -, hpol, -, -⟩ := get_next_proj k
  have hKt : (bumpSwitches (scheduler_get_next_task k).1).tasks = k.tasks := by
    simpa [bumpSwitches] using htk
  have hKp : (bumpSwitches (scheduler_get_next_task k).1).policy = k.policy := by
    simpa [bumpSwitches] using hpol
  have hKc : (bumpSwitches (scheduler_get_next_task k).1).tasks c = k.tasks c := congrFun hKt c
  have hKn : (bumpSwitches (scheduler_get_next_task k).1).tasks n = k.tasks n := congrFun hKt n
  have hKmem : ∀ i, c ∉ (bumpSwitches (scheduler_get_next_task k).1).ready i := by
    intro i hmem
    exact hnot i ((get_next_ready_mem k c i).1 hmem)
  have hsK : ((bumpSwitches (scheduler_get_next_task k).1).tasks c).state = TaskState.running := by
    rw [hKc]; exact hstate
  have hred : (scheduler_context_switch k).1 =
      dispatchNext (requeueCurrent (bumpSwitches (scheduler_get_next_task k).1) c) n := by
    simp [scheduler_context_switch, hrun, hlock, hcur, hnext, Ne.symm hne]
  have hRready := requeueCurrent_ready (bumpSwitches (scheduler_get_next_task k).1) c hsK
  have hRslice := requeueCurrent_slice (bumpSwitches (scheduler_get_next_task k).1) c hsK
  have hRpres := requeueCurrent_tasks_pre (bumpSwitches (scheduler_get_next_task k).1) c n
  have hpn : ((requeueCurrent (bumpSwitches (scheduler_get_next_task k).1) c).tasks n).priority
      = (k.tasks n).priority := by
    rw [hRpres.2.2.2.1, hKn]
  have hDready := dispatchNext_ready (requeueCurrent (bumpSwitches (scheduler_get_next_task k).1) c) n
  have hDother := dispatchNext_tasks_other
    (requeueCurrent (bumpSwitches (scheduler_get_next_task k).1) c) n c (Ne.symm hne)
  rw [hred]
  refine ⟨?_, ?_, ?_, ?_, ?_⟩
  · simp only [hDready, hpn, hRready, hKc]
    by_cases hpp : (k.tasks c).priority = (k.tasks n).priority
    · rw [if_pos hpp, if_pos hpp.symm, erase_append_singleton _ _ _ hne]
      refine ⟨((bumpSwitches (scheduler_get_next_task k).1).ready ((k.tasks c).priority)).erase n,
        by rw [hpp], ?_⟩
      intro hm
      exact hKmem _ (List.mem_of_mem_erase hm)
    · rw [if_neg hpp]
      exact ⟨(bumpSwitches (scheduler_get_next_task k).1).ready ((k.tasks c).priority),
        by simp, hKmem _⟩
  · rw [hDother]; exact hRslice.1
  · rintro ⟨hpRR, hz⟩
    rw [hDother, hRslice.2]
    simp [hKc, hKp, hpRR, hz]
  · rintro ⟨hpRR, hz⟩
    rw [hDother, hRslice.2]
    simp [hKc, hKp, hpRR, hz]
  · intro hnRR
    rw [hDother, hRslice.2]
    simp [hKc, hKp, hnRR]

/-- C5 (witness): the tail-requeue theorem applied to the concrete
preemption scenario (Priority policy, tid 1 preempted by tid 0). -/
theorem C5_preempted_task_requeued_at_tail_witness :
    kC5.schedRunning = true ∧ kC5.lockCount = 0 ∧ kC5.current = some 1 ∧
    (kC5.tasks 1).state = TaskState.running ∧
    (scheduler_get_next_task kC5).2 = some 0 ∧ (0 : Nat) ≠ 1 ∧
    (∀ i, (1 : Nat) ∉ kC5.ready i) ∧
    ((∃ l, ((scheduler_context_switch kC5).1).ready ((kC5.tasks 1).priority) = l ++ [1] ∧
        (1 : Nat) ∉ l) ∧
      (((scheduler_context_switch kC5).1).tasks 1).state = TaskState.ready ∧
      (kC5.policy = SCHEDULING_POLICY_RR ∧ dec32 (kC5.tasks 1).time_slice_count = 0 →
        (((scheduler_context_switch kC5).1).tasks 1).time_slice_count = (kC5.tasks 1).time_slice) ∧
      (kC5.policy = SCHEDULING_POLICY_RR ∧ dec32 (kC5.tasks 1).time_slice_count ≠ 0 →
        (((scheduler_context_switch kC5).1).tasks 1).time_slice_count
          = dec32 (kC5.tasks 1).time_slice_count) ∧
      (kC5.policy ≠ SCHEDULING_POLICY_RR →
        (((scheduler_context_switch kC5).1).tasks 1).time_slice_count
          = (kC5.tasks 1).time_slice_count)) := by
  have hnot : ∀ i, (1 : Nat) ∉ kC5.ready i := by
    intro i
    show (1 : Nat) ∉
      (if i = 0 then [0] else if i = 1 then [2] else if i = 15 then [3] else ([] : List Nat))
    split_ifs <;> decide
  exact ⟨rfl, rfl, rfl, rfl, by decide, by decide, hnot,
    C5_preempted_task_requeued_at_tail kC5 1 0 rfl rfl rfl rfl (by decide) (by decide) hnot⟩

/-- The priority scan loop is the head of the concatenation of the ready
lists in scan order. -/
theorem firstHead_eq_head (lls : List (List Nat)) : firstHead lls = lls.flatten.head? := by
  induction lls with
  | nil => rfl
  | cons l ls ih =>
    cases l with
    | nil => simpa using ih
    | cons a as => simp [firstHead]

/-- The EDF scan ignores exactly the non-candidates (aperiodic tasks and
tasks whose deadline is at the `UINT32_MAX` bound): it agrees with the pure
minimum fold on the filtered candidate list as long as the running bound
stays at most `UINT32_MAX`. -/
theorem edfFold_eq_minFold (tsk : Nat → Task) (l : List Nat) (best : Option Nat) (bd : Nat)
    (hbd : bd ≤ UINT32_MAX) :
    edfFold tsk l best bd = minFold (dlKey tsk) (l.filter (edfCandB tsk)) best bd := by
  induction l generalizing best bd with
  | nil => rfl
  | cons t ts ih =>
    by_cases hcand : edfCandB tsk t = true
    · have hper : 0 < (tsk t).period := by
        have h := hcand
        unfold edfCandB at h
        simp only [Bool.and_eq_true, decide_eq_true_eq] at h
        exact h.1
      rw [List.filter_cons_of_pos hcand]
      unfold edfFold minFold dlKey
      by_cases hc : (tsk t).absolute_deadline < bd
      · rw [if_pos ⟨hper, hc⟩, if_pos hc]
        exact ih _ _ (le_of_lt (lt_of_lt_of_le hc hbd))
      · rw [if_neg (fun hcon => hc hcon.2), if_neg hc]
        exact ih best bd hbd
    · rw [List.filter_cons_of_neg hcand]
      unfold edfFold
      rw [if_neg]
      · exact ih best bd hbd
      · intro hcon
        apply hcand
        unfold edfCandB
        simp only [Bool.and_eq_true, decide_eq_true_eq]
        exact ⟨hcon.1, lt_of_lt_of_le hcon.2 hbd⟩

/-- The pure minimum fold started at a first element computes the earliest
minimum of the whole list. -/
theorem minFold_isFirstMin (key : Nat → Nat) (l : List Nat) (c : Nat) :
    ∃ r, minFold key l (some c) (key c) = some r ∧ IsFirstMin key (c :: l) r := by
  induction l generalizing c with
  | nil => exact ⟨c, rfl, [], [], rfl, by simp, by simp⟩
  | cons x xs ih =>
    unfold minFold
    by_cases h : key x < key c
    · rw [if_pos h]
      obtain ⟨r, hfold, l₁, l₂, hsplit, hleft, hright⟩ := ih x
      have hrx : key r ≤ key x := by
        cases l₁ with
        | nil =>
          have hx : x = r := by simpa using congrArg List.head? hsplit
          exact le_of_eq (congrArg key hx.symm)
        | cons a as =>
          have hx : x = a := by simpa using congrArg List.head? hsplit
          rw [hx]
          exact le_of_lt (hleft a (List.mem_cons_self a as))
      refine ⟨r, hfold, c :: l₁, l₂, by rw [hsplit]; simp, ?_, hright⟩
      intro y hy
      rcases List.mem_cons.1 hy with rfl | hy
      · exact lt_of_le_of_lt hrx h
      · exact hleft y hy
    · rw [if_neg h]
      obtain ⟨r, hfold, l₁, l₂, hsplit, hleft, hright⟩ := ih c
      cases l₁ with
      | nil =>
        have hc : c = r ∧ xs = l₂ := by
          constructor
          · simpa using congrArg List.head? hsplit
          · simpa using congrArg List.tail hsplit
        obtain ⟨rfl, rfl⟩ := hc
        refine ⟨c, hfold, [], x :: xs, rfl, by simp, ?_⟩
        intro y hy
        rcases List.mem_cons.1 hy with rfl | hy
        · exact le_of_not_lt h
        · exact hright y hy
      | cons a as =>
        have hac : a = c := by simpa using (congrArg List.head? hsplit).symm
        subst hac
        have hxs : xs = as ++ r :: l₂ := by simpa using congrArg List.tail hsplit
        have hrc : key r < key a := hleft a (List.mem_cons_self a as)
        refine ⟨r, hfold, a :: x :: as, l₂, by rw [hxs]; simp, ?_, hright⟩
        intro y hy
        rcases List.mem_cons.1 hy with rfl | hy
        · exact hrc
        rcases List.mem_cons.1 hy with rfl | hy
        · exact lt_of_lt_of_le hrc (le_of_not_lt h)
        · exact hleft y (List.mem_cons_of_mem a hy)

/-- C6 (counterexample): tid 5 is the only Ready periodic task, but its
`absolute_deadline` equals `UINT32_MAX`, so the EDF scan — a strict `<`
against an initial bound of `UINT32_MAX` — never selects it, and the
fallback priority scan returns the aperiodic tid 6 instead of the
smallest-deadline periodic task. -/
theorem C6_edf_skips_uint32max_deadline_cex :
    0 < (kC6.tasks 5).period ∧ (kC6.tasks 6).period = 0 ∧
    (5 : Nat) ∈ scanTids kC6.ready ∧
    (scheduler_get_next_task kC6).2 = some 6 ∧
    (scheduler_get_next_task kC6).2 ≠ some 5 := by
  decide

/-- C6 (amended): with the scheduler unlocked and the EDF policy selected,
`scheduler_get_next_task` returns the EDF candidate — Ready, `period > 0`
and `absolute_deadline < UINT32_MAX` — with the smallest `absolute_deadline`,
ties broken by scan order (priority level ascending, FIFO within a level);
when no candidate exists it returns the head of the first non-empty ready
queue, and the idle task when nothing is ready at all. -/
theorem C6_edf_selection (k : Kernel)
    (hpol : k.policy = SCHEDULING_POLICY_EDF) (hlock : k.lockCount = 0) :
    (edfCands k.tasks k.ready ≠ [] →
      ∃ t, (scheduler_get_next_task k).2 = some t ∧
        IsFirstMin (dlKey k.tasks) (edfCands k.tasks k.ready) t) ∧
    (edfCands k.tasks k.ready = [] →
      (scheduler_get_next_task k).2 = some (((scanTids k.ready).head?).getD k.idleTid)) := by
  have hresult : (scheduler_get_next_task k).2
      = some ((edfPick k.tasks k.ready).getD k.idleTid) := by
    simp [scheduler_get_next_task, bumpInvocations, hlock, hpol,
      SCHEDULING_POLICY_PRIORITY, SCHEDULING_POLICY_RR, SCHEDULING_POLICY_EDF,
      SCHEDULING_POLICY_RMS]
  have hfold : edfFold k.tasks (scanTids k.ready) none UINT32_MAX
      = minFold (dlKey k.tasks) (edfCands k.tasks k.ready) none UINT32_MAX :=
    edfFold_eq_minFold k.tasks (scanTids k.ready) none UINT32_MAX (le_refl _)
  constructor
  · intro hne
    cases hcs : edfCands k.tasks k.ready with
    | nil => exact absurd hcs hne
    | cons c cs =>
      have hkey : dlKey k.tasks c < UINT32_MAX := by
        have hmem : c ∈ edfCands k.tasks k.ready := by
          rw [hcs]; exact List.mem_cons_self c cs
        have hcand := List.of_mem_filter hmem
        unfold edfCandB at hcand
        simp only [Bool.and_eq_true, decide_eq_true_eq] at hcand
        exact hcand.2
      obtain ⟨r, hmin, hfm⟩ := minFold_isFirstMin (dlKey k.tasks) cs c
      refine ⟨r, ?_, ?_⟩
      · rw [hresult]
        unfold edfPick
        rw [hfold, hcs]
        unfold minFold
        rw [if_pos hkey, hmin]
        rfl
      · exact hfm
  · intro hemp
    rw [hresult]
    unfold edfPick
    rw [hfold, hemp]
    simp only [minFold]
    unfold priorityPick
    rw [firstHead_eq_head]
    rfl

/-- C6 (witness): the EDF selection theorem applied to the concrete kernel
with two Ready periodic tasks (deadlines 100 and 50). -/
theorem C6_edf_selection_witness :
    kC6w.policy = SCHEDULING_POLICY_EDF ∧ kC6w.lockCount = 0 ∧
    ((edfCands kC6w.tasks kC6w.ready ≠ [] →
        ∃ t, (scheduler_get_next_task kC6w).2 = some t ∧
          IsFirstMin (dlKey kC6w.tasks) (edfCands kC6w.tasks kC6w.ready) t) ∧
      (edfCands kC6w.tasks kC6w.ready = [] →
        (scheduler_get_next_task kC6w).2
          = some (((scanTids kC6w.ready).head?).getD kC6w.idleTid))) :=
  ⟨rfl, rfl, C6_edf_selection kC6w rfl rfl⟩

/-- C9: for a non-idle current task, `task_delay 0` is literally the same
state transformation as `task_yield` and returns success (the
`ticks == 0` branch calls `task_yield()` and returns 0); moreover the call
leaves the current task's `delay_until` and `block_reason` untouched and
never makes it Blocked. -/
theorem C9_delay_zero_equals_yield (k : Kernel) (c : Nat)
    (hcur : k.current = some c) (hid : c ≠ k.idleTid) :
    task_delay k 0 = (task_yield k, 0) ∧
    ((task_delay k 0).1.tasks c).delay_until = (k.tasks c).delay_until ∧
    ((task_delay k 0).1.tasks c).block_reason = (k.tasks c).block_reason ∧
    ((k.tasks c).state ≠ TaskState.blocked →
      ((task_delay k 0).1.tasks c).state ≠ TaskState.blocked) := by
  have heq : task_delay k 0 = (task_yield k, 0) := by
    unfold task_delay
    rw [hcur]
    simp [hid]
  obtain ⟨h1, h2, h3⟩ := ctx_switch_tasks_pre k c
  refine ⟨heq, ?_, ?_, ?_⟩
  · rw [heq]; exact h1
  · rw [heq]; exact h2
  · rw [heq]; exact h3

/-- C9 (witness): the delay/yield equivalence applied to the concrete kernel
whose current task is tid 1. -/
theorem C9_delay_zero_equals_yield_witness :
    kC9.current = some 1 ∧ (1 : Nat) ≠ kC9.idleTid ∧
    task_delay kC9 0 = (task_yield kC9, 0) :=
  ⟨rfl, by decide, (C9_delay_zero_equals_yield kC9 1 rfl (by decide)).1⟩

/-- C8 (witness): the bounds theorem applied to a concrete semaphore
(count 1 of 2) and a concrete queue (1 of 2 slots used). -/
theorem C8_ipc_count_bounds_witness :
    sC8.count ≤ sC8.max_count ∧ qC8.count ≤ qC8.capacity ∧
    ((semaphore_take kBase sC8 5).2.1.count ≤ (semaphore_take kBase sC8 5).2.1.max_count ∧
      (semaphore_give kBase sC8).2.1.count ≤ (semaphore_give kBase sC8).2.1.max_count ∧
      (queue_send kBase qC8 9 5).2.1.count ≤ (queue_send kBase qC8 9 5).2.1.capacity ∧
      (queue_receive kBase qC8 5).2.1.count ≤ (queue_receive kBase qC8 5).2.1.capacity ∧
      (sC8.count = 0 → (semaphore_take kBase sC8 5).2.1.count = 0) ∧
      (sC8.count = sC8.max_count → (semaphore_give kBase sC8).2.1.count = sC8.count)) :=
  ⟨by decide, by decide,
    C8_ipc_count_bounds kBase sC8 qC8 5 5 5 9 (by decide) (by decide)⟩

end OrbitRTOS
